import Mathlib

/-!
Shallow embedding of the Intel Stratix10 SoC FPGA manager driver
(drivers/fpga/stratix10-soc.c): the buffer pool, the service-channel
callback, and the three fpga-manager operations (write_init, write,
write_complete).  External effects (transport sends, completion waits,
dma mapping, the channel release stratix10_svc_done) are made explicit:
sends/waits are driven by environment records, and side effects are
recorded as an event trace in the function results.
-/

set_option autoImplicit false

namespace S10

/-- NUM_SVC_BUFS from the source. -/
def NUM_SVC_BUFS : Nat := 4

/-- SVC_BUF_SIZE = SZ_512K bytes. -/
def SVC_BUF_SIZE : Nat := 524288

/-- INVALID_FIRMWARE_VERSION sentinel (0xFFFF). -/
def INVALID_FIRMWARE_VERSION : Nat := 65535

/-- Linux errno values used by the driver (uapi errno, not under src/). -/
def EINVAL : Int := 22

def ETIMEDOUT : Int := 110

def EFAULT : Int := 14

def ENOBUFS : Int := 105

/-- Modelled from the spec: the status-bit taxonomy of the service layer
(the enum stratix10_svc_status of stratix10-svc-client.h is not under
src/).  The spec lists the conditions in the order OK, BUFFER_SUBMITTED,
BUFFER_DONE, COMPLETED, ERROR, NO_SUPPORT; bit indices follow that order,
so SVC_STATUS_NO_SUPPORT comes after SVC_STATUS_ERROR, as it also does in
the kernel header. -/
def SVC_STATUS_OK : Nat := 0

def SVC_STATUS_BUFFER_SUBMITTED : Nat := 1

def SVC_STATUS_BUFFER_DONE : Nat := 2

def SVC_STATUS_COMPLETED : Nat := 3

def SVC_STATUS_ERROR : Nat := 4

def SVC_STATUS_NO_SUPPORT : Nat := 5

/-- Command codes sent by the driver (names from the source; the numeric
values of enum stratix10_svc_command_code are immaterial here). -/
inductive Cmd where
  | RECONFIG
  | RECONFIG_DATA_SUBMIT
  | RECONFIG_DATA_CLAIM
  | RECONFIG_STATUS
  | FIRMWARE_VERSION
deriving Repr, DecidableEq

/-- Observable side effects of the driver, recorded as a trace. -/
inductive Event where
  /-- memcpy of len bytes into pool buffer index i -/
  | copy (i : Nat) (len : Nat)
  /-- dma_map_single of pool buffer index i -/
  | dmaMap (i : Nat)
  /-- dma_unmap_single of pool buffer index i -/
  | dmaUnmap (i : Nat)
  /-- stratix10_svc_send of a message (command, payload_length) -/
  | send (cmd : Cmd) (payloadLen : Nat)
  /-- stratix10_svc_done on the channel -/
  | svcDone
  /-- wait_for_completion_timeout entered with this time budget -/
  | wait (budget : Nat)
  /-- WARN on a protocol violation -/
  | warn
  /-- stratix10_svc_free_memory of a pool buffer -/
  | free (addr : Nat)
deriving Repr, DecidableEq

/-- struct s10_svc_buf: virtual address (none = NULL), dma handle, lock
flag.  mapped records whether the buffer currently holds a live dma
mapping (set by dma_map_single, cleared by dma_unmap_single). -/
structure SvcBuf where
  buf : Option Nat
  dma_addr : Nat
  lock : Bool
  mapped : Bool
deriving Repr, DecidableEq

/-- struct s10_priv: the pool, the aggregated status-bit set (bit indices
present in the set are exactly the bits set in the C word), the cached
firmware version and the smmu quirk flag. -/
structure S10Priv where
  svc_bufs : List SvcBuf
  status : Finset Nat
  fw_version : Nat
  is_smmu_enabled : Bool
deriving DecidableEq

/-- struct stratix10_svc_cb_data: status word plus four returned kernel
addresses (none = NULL). -/
structure CbData where
  status : Nat
  kaddr1 : Option Nat
  kaddr2 : Option Nat
  kaddr3 : Option Nat
  kaddr4 : Option Nat
deriving Repr, DecidableEq

/-- test_and_clear_bit on the aggregated status set. -/
def tcBit (s : Finset Nat) (i : Nat) : Bool × Finset Nat :=
  if i ∈ s then (true, s.erase i) else (false, s)

/-- s10_get_unlocked_buffer_count: how many pool entries have a clear
lock flag. -/
def s10_get_unlocked_buffer_count (priv : S10Priv) : Nat :=
  (priv.svc_bufs.filter (fun b => !b.lock)).length

/-- The scan inside s10_unlock_bufs: find the first pool entry whose buf
address equals the returned kernel address; unmap it when the smmu quirk
is active and clear its lock.  none when no entry matches. -/
def unlockScan (smmu : Bool) (a : Nat) : List SvcBuf → Option (List SvcBuf × List Event)
  | [] => none
  | b :: rest =>
    if b.buf = some a then
      some ({ b with lock := false, mapped := if smmu then false else b.mapped } :: rest,
            if smmu then [Event.dmaUnmap 0] else [])
    else
      (unlockScan smmu a rest).map (fun p => (b :: p.1, p.2))

/-- s10_unlock_bufs: NULL returns immediately; otherwise unlock the
matching buffer, or WARN when none matches (pool left unchanged). -/
def s10_unlock_bufs (priv : S10Priv) (kaddr : Option Nat) : S10Priv × List Event :=
  match kaddr with
  | none => (priv, [])
  | some a =>
    match unlockScan priv.is_smmu_enabled a priv.svc_bufs with
    | some (bufs, evs) => ({ priv with svc_bufs := bufs }, evs)
    | none => (priv, [Event.warn])

/-- The aggregation loop of s10_receive_callback: for every bit index
i ≤ hi set in the inbound status word, set bit i in the aggregated set
(bits already present are kept). -/
def orBitsUpto (hi : Nat) (w : Nat) (s : Finset Nat) : Finset Nat :=
  ((Finset.range (hi + 1)).filter (fun i => w.testBit i)) ∪ s

/-- s10_receive_callback: OR the inbound status bits with index up to
SVC_STATUS_ERROR into the aggregated set, then, when BUFFER_DONE is
present in the inbound word, pass each of the four returned addresses to
s10_unlock_bufs. -/
def s10_receive_callback (priv : S10Priv) (data : CbData) : S10Priv × List Event :=
  let p0 := { priv with status := orBitsUpto SVC_STATUS_ERROR data.status priv.status }
  if data.status.testBit SVC_STATUS_BUFFER_DONE then
    let r1 := s10_unlock_bufs p0 data.kaddr1
    let r2 := s10_unlock_bufs r1.1 data.kaddr2
    let r3 := s10_unlock_bufs r2.1 data.kaddr3
    let r4 := s10_unlock_bufs r3.1 data.kaddr4
    (r4.1, r1.2 ++ r2.2 ++ r3.2 ++ r4.2)
  else
    (p0, [])

/-- Environment of one s10_send_buf call: the result of the
stratix10_svc_send inside s10_svc_send_msg, and the handle produced by
dma_map_single when the smmu quirk is active. -/
structure SendEnv where
  sendRet : Int
  dmaAddr : Nat
deriving Repr, DecidableEq

/-- The acquire scan of s10_send_buf: test_and_set_bit_lock over the pool
in order, claiming the first entry whose lock flag is clear.  Returns the
updated pool and the index claimed, or none when every entry is locked. -/
def lockFirstFree : List SvcBuf → Option (List SvcBuf × Nat)
  | [] => none
  | b :: rest =>
    if b.lock then
      (lockFirstFree rest).map (fun p => (b :: p.1, p.2 + 1))
    else
      some ({ b with lock := true } :: rest, 0)

/-- svc_bufs[i].dma_addr = dma_map_single(...): record the dma handle and
the live mapping on the entry at index i. -/
def setDmaAt : List SvcBuf → Nat → Nat → List SvcBuf
  | [], _, _ => []
  | b :: rest, 0, a => { b with dma_addr := a, mapped := true } :: rest
  | b :: rest, n + 1, a => b :: setDmaAt rest n a

/-- clear_bit_unlock(SVC_BUF_LOCK, &svc_bufs[i].lock): clear the lock
flag of the entry at index i. -/
def clearLockAt : List SvcBuf → Nat → List SvcBuf
  | [], _ => []
  | b :: rest, 0 => { b with lock := false } :: rest
  | b :: rest, n + 1 => b :: clearLockAt rest n

/-- s10_send_buf: claim the first free buffer (-ENOBUFS when none), copy
min(count, SVC_BUF_SIZE) bytes into it, map it when the smmu quirk is
active, send COMMAND_RECONFIG_DATA_SUBMIT; on a send error unlock the
just-claimed buffer and return the error, else return the transferred
length. -/
def s10_send_buf (priv : S10Priv) (count : Nat) (e : SendEnv) : S10Priv × Int × List Event :=
  match lockFirstFree priv.svc_bufs with
  | none => (priv, -ENOBUFS, [])
  | some (bufs1, i) =>
    let xfer := min count SVC_BUF_SIZE
    let bufs2 := if priv.is_smmu_enabled then setDmaAt bufs1 i e.dmaAddr else bufs1
    let evs := [Event.copy i xfer] ++ (if priv.is_smmu_enabled then [Event.dmaMap i] else [])
               ++ [Event.send Cmd.RECONFIG_DATA_SUBMIT xfer]
    if e.sendRet < 0 then
      ({ priv with svc_bufs := clearLockAt bufs2 i }, e.sendRet, evs)
    else
      ({ priv with svc_bufs := bufs2 }, (xfer : Int), evs)

/-- The two fpga_image_info flag bits tested by s10_ops_write_init
(FPGA_MGR_PARTIAL_RECONFIG and FPGA_MGR_BITSTREAM_AUTHENTICATE of
fpga-mgr.h; the code only tests each bit, so they are modelled as two
booleans). -/
structure InfoFlags where
  flagPartialReconfig : Bool
  flagAuthenticate : Bool
deriving Repr, DecidableEq

/-- Environment of one s10_ops_write_init call: result of the
stratix10_svc_send for COMMAND_RECONFIG, result of
wait_for_completion_timeout (0 = timed out), and the callback data
delivered when the wait was signalled. -/
structure InitEnv where
  sendRet : Int
  waitRet : Nat
  cb : CbData
deriving Repr, DecidableEq

/-- The ctype.flags computation at the top of s10_ops_write_init: the
partial branch wins over the authenticate branch (else-if); the
authenticate branch returns -EINVAL (none here) when the cached firmware
version is still the sentinel.  some (p, a) gives the two flag bits put
into ctype.flags. -/
def s10_write_init_ctype (priv : S10Priv) (info : InfoFlags) : Option (Bool × Bool) :=
  if info.flagPartialReconfig then some (true, false)
  else if info.flagAuthenticate then
    if priv.fw_version = INVALID_FIRMWARE_VERSION then none
    else some (false, true)
  else some (false, false)

/-- s10_ops_write_init: validate flags (early -EINVAL return without any
send and without stratix10_svc_done), send COMMAND_RECONFIG, wait, and
consume the OK bit; on success reset every buffer lock.  All paths except
the early return end with stratix10_svc_done (the init_done label). -/
def s10_ops_write_init (priv : S10Priv) (info : InfoFlags) (e : InitEnv) :
    S10Priv × Int × List Event :=
  match s10_write_init_ctype priv info with
  | none => (priv, -EINVAL, [])
  | some _ctype =>
    let evs0 := [Event.send Cmd.RECONFIG 4]
    if e.sendRet < 0 then
      (priv, e.sendRet, evs0 ++ [Event.svcDone])
    else if e.waitRet = 0 then
      (priv, -ETIMEDOUT, evs0 ++ [Event.svcDone])
    else
      let pc := s10_receive_callback priv e.cb
      let ok := tcBit pc.1.status SVC_STATUS_OK
      if ok.1 then
        ({ pc.1 with status := ok.2,
                     svc_bufs := pc.1.svc_bufs.map (fun b => { b with lock := false }) },
         0, evs0 ++ pc.2 ++ [Event.svcDone])
      else
        ({ pc.1 with status := ok.2 }, -ETIMEDOUT, evs0 ++ pc.2 ++ [Event.svcDone])

/-- Environment of one iteration of the s10_ops_write loop: result of the
single stratix10_svc_send this iteration may perform, the dma handle if a
mapping is made, the wait_for_completion_timeout result and the callback
data delivered when the wait was signalled. -/
structure WriteEnv where
  sendRet : Int
  dmaAddr : Nat
  waitRet : Nat
  cb : CbData
deriving Repr, DecidableEq

/-- Outcome of one iteration of the s10_ops_write loop: return to the
caller, or go round the loop again with the remaining byte count. -/
inductive WriteOut where
  | ret (priv : S10Priv) (r : Int) (evs : List Event)
  | cont (priv : S10Priv) (count : Nat) (evs : List Event)
deriving DecidableEq

/-- The tail of the s10_ops_write loop body, from
wait_for_completion_timeout on: consume BUFFER_DONE or (else)
BUFFER_SUBMITTED and loop; else consume ERROR and fail -EFAULT; else fail
-ETIMEDOUT when the wait timed out; else loop. -/
def s10_write_after_wait (priv : S10Priv) (count : Nat) (e : WriteEnv) (evs : List Event) :
    WriteOut :=
  let pc := if 0 < e.waitRet then s10_receive_callback priv e.cb else (priv, [])
  let evs2 := evs ++ pc.2
  let bd := tcBit pc.1.status SVC_STATUS_BUFFER_DONE
  if bd.1 then .cont { pc.1 with status := bd.2 } count evs2
  else
    let bs := tcBit bd.2 SVC_STATUS_BUFFER_SUBMITTED
    if bs.1 then .cont { pc.1 with status := bs.2 } count evs2
    else
      let er := tcBit bs.2 SVC_STATUS_ERROR
      if er.1 then .ret { pc.1 with status := er.2 } (-EFAULT) evs2
      else if e.waitRet = 0 then .ret { pc.1 with status := er.2 } (-ETIMEDOUT) evs2
      else .cont { pc.1 with status := er.2 } count evs2

/-- One iteration of the while(true) loop of s10_ops_write.  With input
remaining, submit a chunk via s10_send_buf; a negative result loops again
immediately (continue) with the cursor untouched, skipping the wait.
With no input remaining, return 0 when every buffer is unlocked, else
send COMMAND_RECONFIG_DATA_CLAIM with no payload (a send error returns
it) and fall into the wait tail. -/
def s10_ops_write_step (priv : S10Priv) (count : Nat) (e : WriteEnv) : WriteOut :=
  if 0 < count then
    let sb := s10_send_buf priv count ⟨e.sendRet, e.dmaAddr⟩
    if sb.2.1 < 0 then .cont sb.1 count sb.2.2
    else s10_write_after_wait sb.1 (count - sb.2.1.toNat) e sb.2.2
  else
    if s10_get_unlocked_buffer_count priv = NUM_SVC_BUFS then .ret priv 0 []
    else
      let evs := [Event.send Cmd.RECONFIG_DATA_CLAIM 0]
      if e.sendRet < 0 then .ret priv e.sendRet evs
      else s10_write_after_wait priv 0 e evs

/-- s10_ops_write, driven by a list of per-iteration environments; none
when the environment list runs out before the loop returns. -/
def s10_ops_write : S10Priv → Nat → List WriteEnv → Option (S10Priv × Int × List Event)
  | _, _, [] => none
  | priv, count, e :: es =>
    match s10_ops_write_step priv count e with
    | .ret p r evs => some (p, r, evs)
    | .cont p c evs => (s10_ops_write p c es).map (fun t => (t.1, t.2.1, evs ++ t.2.2))

/-- Environment of one iteration of the s10_ops_write_complete polling
loop. -/
structure PollEnv where
  sendRet : Int
  waitRet : Nat
  cb : CbData
deriving Repr, DecidableEq

/-- Outcome of one polling iteration: leave the loop with a result, or
poll again carrying the remaining time budget. -/
inductive PollOut where
  | ret (priv : S10Priv) (r : Int) (evs : List Event)
  | cont (priv : S10Priv) (budget : Nat) (evs : List Event)
deriving DecidableEq

/-- One iteration of the do/while loop of s10_ops_write_complete: send
COMMAND_RECONFIG_STATUS (no payload), wait with the current time budget
(recorded in the trace), then timeout = ret (the remaining budget is
carried into the next iteration), and consume COMPLETED (success 0) or
ERROR (-EFAULT); otherwise poll again. -/
def s10_write_complete_step (priv : S10Priv) (budget : Nat) (e : PollEnv) : PollOut :=
  let evs0 := [Event.send Cmd.RECONFIG_STATUS 0]
  if e.sendRet < 0 then .ret priv e.sendRet evs0
  else
    let evs1 := evs0 ++ [Event.wait budget]
    if e.waitRet = 0 then .ret priv (-ETIMEDOUT) evs1
    else
      let pc := s10_receive_callback priv e.cb
      let evs2 := evs1 ++ pc.2
      let c := tcBit pc.1.status SVC_STATUS_COMPLETED
      if c.1 then .ret { pc.1 with status := c.2 } 0 evs2
      else
        let er := tcBit c.2 SVC_STATUS_ERROR
        if er.1 then .ret { pc.1 with status := er.2 } (-EFAULT) evs2
        else .cont { pc.1 with status := er.2 } e.waitRet evs2

/-- The polling loop of s10_ops_write_complete, threading the time
budget; none when the environment list runs out before the loop exits. -/
def s10_write_complete_loop : S10Priv → Nat → List PollEnv → Option (S10Priv × Int × List Event)
  | _, _, [] => none
  | priv, budget, e :: es =>
    match s10_write_complete_step priv budget e with
    | .ret p r evs => some (p, r, evs)
    | .cont p b evs => (s10_write_complete_loop p b es).map (fun t => (t.1, t.2.1, evs ++ t.2.2))

/-- s10_ops_write_complete: run the polling loop starting from the full
S10_RECONFIG_TIMEOUT budget (a parameter here, since the constant lives
in a header outside src/), then stratix10_svc_done once, after the loop,
on every exit path. -/
def s10_ops_write_complete (priv : S10Priv) (timeout0 : Nat) (envs : List PollEnv) :
    Option (S10Priv × Int × List Event) :=
  (s10_write_complete_loop priv timeout0 envs).map
    (fun t => (t.1, t.2.1, t.2.2 ++ [Event.svcDone]))

/-- Events projection of a loop-iteration outcome. -/
def WriteOut.evs : WriteOut → List Event
  | .ret _ _ evs => evs
  | .cont _ _ evs => evs

/-- Iterate s10_send_buf n times with a fixed environment and input size,
collecting the returned values (the acquire-step scan runs once per
call). -/
def sendIter (count : Nat) (e : SendEnv) : Nat → S10Priv → S10Priv × List Int
  | 0, priv => (priv, [])
  | n + 1, priv =>
    let r := s10_send_buf priv count e
    let rest := sendIter count e n r.1
    (rest.1, r.2.1 :: rest.2)

/-! ### Pool helper lemmas -/

/-- List-level free-buffer count (the body of
s10_get_unlocked_buffer_count). -/
def freeCount (l : List SvcBuf) : Nat := (l.filter (fun b => !b.lock)).length

theorem s10_get_unlocked_buffer_count_eq (priv : S10Priv) :
    s10_get_unlocked_buffer_count priv = freeCount priv.svc_bufs := rfl

theorem unlockScan_eq_none (smmu : Bool) (a : Nat) :
    ∀ l : List SvcBuf, (∀ b ∈ l, b.buf ≠ some a) → unlockScan smmu a l = none := by
  intro l
  induction l with
  | nil => intro _; rfl
  | cons b rest ih =>
    intro h
    have hb : b.buf ≠ some a := h b (List.mem_cons_self b rest)
    have hrest : unlockScan smmu a rest = none :=
      ih (fun x hx => h x (List.mem_cons_of_mem b hx))
    simp [unlockScan, hb, hrest]

theorem lockFirstFree_eq_none (l : List SvcBuf) :
    lockFirstFree l = none ↔ ∀ b ∈ l, b.lock = true := by
  induction l with
  | nil => simp [lockFirstFree]
  | cons b rest ih =>
    by_cases hb : b.lock
    · simp [lockFirstFree, hb, Option.map_eq_none', ih]
    · simp [lockFirstFree, hb]

theorem freeCount_eq_zero (l : List SvcBuf) :
    freeCount l = 0 ↔ ∀ b ∈ l, b.lock = true := by
  simp [freeCount, List.length_eq_zero, List.filter_eq_nil_iff]

theorem lockFirstFree_freeCount :
    ∀ (l l2 : List SvcBuf) (i : Nat), lockFirstFree l = some (l2, i) →
      freeCount l2 + 1 = freeCount l := by
  intro l
  induction l with
  | nil => intro l2 i h; simp [lockFirstFree] at h
  | cons b rest ih =>
    intro l2 i h
    by_cases hb : b.lock
    · simp only [lockFirstFree, hb, if_pos, Option.map_eq_some'] at h
      obtain ⟨p, hp, hpe⟩ := h
      have := ih p.1 p.2 hp
      cases hpe
      simp only [freeCount, List.filter_cons, hb]
      simpa [freeCount] using this
    · simp only [lockFirstFree, hb, if_neg, Option.some.injEq] at h
      cases h
      simp [freeCount, List.filter_cons, hb]

theorem setDmaAt_map_lock (a : Nat) :
    ∀ (l : List SvcBuf) (i : Nat),
      (setDmaAt l i a).map (fun b => b.lock) = l.map (fun b => b.lock) := by
  intro l
  induction l with
  | nil => intro i; rfl
  | cons b rest ih =>
    intro i
    cases i with
    | zero => simp [setDmaAt]
    | succ n => simp [setDmaAt, ih n]

theorem lockFirstFree_clearLock_roundtrip (a : Nat) (smmu : Bool) :
    ∀ (l l2 : List SvcBuf) (i : Nat), lockFirstFree l = some (l2, i) →
      (clearLockAt (if smmu then setDmaAt l2 i a else l2) i).map (fun b => b.lock)
        = l.map (fun b => b.lock) := by
  intro l
  induction l with
  | nil => intro l2 i h; simp [lockFirstFree] at h
  | cons b rest ih =>
    intro l2 i h
    by_cases hb : b.lock
    · simp only [lockFirstFree, hb, if_pos, Option.map_eq_some'] at h
      obtain ⟨p, hp, hpe⟩ := h
      cases hpe
      have hsd : (if smmu then setDmaAt (b :: p.1) (p.2 + 1) a else b :: p.1)
          = b :: (if smmu then setDmaAt p.1 p.2 a else p.1) := by
        cases smmu <;> simp [setDmaAt]
      rw [hsd]
      simp only [clearLockAt, List.map_cons]
      rw [ih p.1 p.2 hp]
    · simp only [lockFirstFree, hb, if_neg, Option.some.injEq] at h
      cases h
      have hsd : (if smmu then setDmaAt ({ b with lock := true } :: rest) 0 a
            else { b with lock := true } :: rest)
          = (if smmu then { b with lock := true, dma_addr := a, mapped := true }
              else { b with lock := true }) :: rest := by
        cases smmu <;> simp [setDmaAt]
      rw [hsd]
      cases smmu <;> simp_all [clearLockAt]

theorem freeCount_eq_of_map_lock {l1 l2 : List SvcBuf}
    (h : l1.map (fun b => b.lock) = l2.map (fun b => b.lock)) :
    freeCount l1 = freeCount l2 := by
  have e1 : ∀ l : List SvcBuf,
      freeCount l = (l.map (fun b => b.lock)).countP (fun x => !x) := by
    intro l
    rw [freeCount, ← List.countP_eq_length_filter, List.countP_map]
    rfl
  rw [e1, e1, h]

theorem s10_send_buf_exhausted (priv : S10Priv) (count : Nat) (e : SendEnv)
    (h : ∀ b ∈ priv.svc_bufs, b.lock = true) :
    s10_send_buf priv count e = (priv, -ENOBUFS, []) := by
  have hn : lockFirstFree priv.svc_bufs = none := (lockFirstFree_eq_none _).mpr h
  simp [s10_send_buf, hn]

theorem s10_send_buf_fail_freeCount (priv : S10Priv) (count : Nat) (e : SendEnv)
    (he : e.sendRet < 0) :
    freeCount (s10_send_buf priv count e).1.svc_bufs = freeCount priv.svc_bufs := by
  rcases hl : lockFirstFree priv.svc_bufs with _ | ⟨l2, i⟩
  · simp [s10_send_buf, hl]
  · have hr := lockFirstFree_clearLock_roundtrip e.dmaAddr priv.is_smmu_enabled
      priv.svc_bufs l2 i hl
    simp only [s10_send_buf, hl, he, if_pos]
    exact freeCount_eq_of_map_lock hr

theorem s10_send_buf_fail_ret (priv : S10Priv) (count : Nat) (e : SendEnv)
    (he : e.sendRet < 0) (hfree : 0 < freeCount priv.svc_bufs) :
    (s10_send_buf priv count e).2.1 = e.sendRet := by
  rcases hl : lockFirstFree priv.svc_bufs with _ | ⟨l2, i⟩
  · exfalso
    have := (lockFirstFree_eq_none _).mp hl
    have h0 := (freeCount_eq_zero priv.svc_bufs).mpr this
    omega
  · simp [s10_send_buf, hl, he]

theorem s10_send_buf_success (priv : S10Priv) (count : Nat) (e : SendEnv)
    (he : 0 ≤ e.sendRet) (hfree : 0 < freeCount priv.svc_bufs) :
    (s10_send_buf priv count e).2.1 = ((min count SVC_BUF_SIZE : Nat) : Int) ∧
    freeCount (s10_send_buf priv count e).1.svc_bufs + 1 = freeCount priv.svc_bufs := by
  rcases hl : lockFirstFree priv.svc_bufs with _ | ⟨l2, i⟩
  · exfalso
    have := (lockFirstFree_eq_none _).mp hl
    have h0 := (freeCount_eq_zero priv.svc_bufs).mpr this
    omega
  · have hns : ¬ e.sendRet < 0 := not_lt.mpr he
    have hc := lockFirstFree_freeCount priv.svc_bufs l2 i hl
    constructor
    · simp [s10_send_buf, hl, hns]
    · by_cases hs : priv.is_smmu_enabled
      · have hd := freeCount_eq_of_map_lock (setDmaAt_map_lock e.dmaAddr l2 i)
        simp [s10_send_buf, hl, hns, hs, hd, hc]
      · simp [s10_send_buf, hl, hns, hs, hc]

/-- Iterating s10_send_buf with a transport that accepts every message:
starting from n free buffers, all n calls succeed and drain the pool. -/
theorem sendIter_drain (count : Nat) (e : SendEnv) (he : 0 ≤ e.sendRet) :
    ∀ (n : Nat) (priv : S10Priv), freeCount priv.svc_bufs = n →
      (∀ r ∈ (sendIter count e n priv).2, 0 ≤ r) ∧
      freeCount (sendIter count e n priv).1.svc_bufs = 0 := by
  intro n
  induction n with
  | zero =>
    intro priv h
    exact ⟨by simp [sendIter], by simpa [sendIter] using h⟩
  | succ k ih =>
    intro priv h
    have hfree : 0 < freeCount priv.svc_bufs := by omega
    have hs := s10_send_buf_success priv count e he hfree
    have hk : freeCount (s10_send_buf priv count e).1.svc_bufs = k := by omega
    have hrest := ih (s10_send_buf priv count e).1 hk
    constructor
    · intro r hr
      simp only [sendIter, List.mem_cons] at hr
      rcases hr with hr | hr
      · rw [hr, hs.1]
        exact Int.natCast_nonneg _
      · exact hrest.1 r hr
    · simpa [sendIter] using hrest.2

/-! ### Concrete sample states used by the witness theorems -/

/-- A pool with exactly one free buffer (index 2). -/
def samplePriv : S10Priv :=
  { svc_bufs := [{ buf := some 100, dma_addr := 0, lock := true, mapped := false },
                 { buf := some 200, dma_addr := 0, lock := true, mapped := false },
                 { buf := some 300, dma_addr := 0, lock := false, mapped := false },
                 { buf := some 400, dma_addr := 0, lock := true, mapped := true }],
    status := ∅, fw_version := 10, is_smmu_enabled := false }

/-- A pool with every buffer free. -/
def freePriv : S10Priv :=
  { svc_bufs := [{ buf := some 100, dma_addr := 0, lock := false, mapped := false },
                 { buf := some 200, dma_addr := 0, lock := false, mapped := false },
                 { buf := some 300, dma_addr := 0, lock := false, mapped := false },
                 { buf := some 400, dma_addr := 0, lock := false, mapped := false }],
    status := ∅, fw_version := 10, is_smmu_enabled := false }

/-! ### Claims -/

/-- C5: for every pool state and every returned kernel address matching
no buffer of the pool, s10_unlock_bufs leaves the whole driver state
(every lock flag, buffer pointer and mapping) unchanged and performs no
free; the violation is only logged (the WARN event) and control returns
normally. -/
theorem unlock_unknown_handle_is_noop (priv : S10Priv) (a : Nat)
    (h : ∀ b ∈ priv.svc_bufs, b.buf ≠ some a) :
    s10_unlock_bufs priv (some a) = (priv, [Event.warn]) := by
  have hn := unlockScan_eq_none priv.is_smmu_enabled a priv.svc_bufs h
  simp [s10_unlock_bufs, hn]

/-- Witness for C5 at a concrete pool and a handle matching no buffer. -/
theorem unlock_unknown_handle_is_noop_witness :
    s10_unlock_bufs samplePriv (some 999) = (samplePriv, [Event.warn]) :=
  unlock_unknown_handle_is_noop samplePriv 999 (by decide)

/-- C10: when the transport send fails inside s10_send_buf, the
just-claimed buffer is unlocked again before the error is returned: the
free-buffer count after the failed call equals the count before it, and
(whenever a buffer was actually acquired, i.e. the pool was not already
exhausted) the returned value is the transport error itself. -/
theorem send_error_frees_claimed_buffer (priv : S10Priv) (count : Nat) (e : SendEnv)
    (he : e.sendRet < 0) :
    s10_get_unlocked_buffer_count (s10_send_buf priv count e).1
      = s10_get_unlocked_buffer_count priv ∧
    (0 < s10_get_unlocked_buffer_count priv →
      (s10_send_buf priv count e).2.1 = e.sendRet) := by
  rw [s10_get_unlocked_buffer_count_eq, s10_get_unlocked_buffer_count_eq]
  exact ⟨s10_send_buf_fail_freeCount priv count e he,
         fun h => s10_send_buf_fail_ret priv count e he h⟩

/-- Witness for C10 at a concrete pool with a free buffer and a failing
transport. -/
theorem send_error_frees_claimed_buffer_witness :
    s10_get_unlocked_buffer_count
        (s10_send_buf samplePriv 3 { sendRet := -5, dmaAddr := 7 }).1
      = s10_get_unlocked_buffer_count samplePriv ∧
    (s10_send_buf samplePriv 3 { sendRet := -5, dmaAddr := 7 }).2.1 = -5 :=
  ⟨(send_error_frees_claimed_buffer samplePriv 3 { sendRet := -5, dmaAddr := 7 }
      (by decide)).1,
   (send_error_frees_claimed_buffer samplePriv 3 { sendRet := -5, dmaAddr := 7 }
      (by decide)).2 (by decide)⟩

/-- C3: from a pool of NUM_SVC_BUFS buffers that are all free, the
acquire scan of s10_send_buf succeeds NUM_SVC_BUFS times in a row (every
returned value is a non-negative transferred length) with no intervening
release; one further call finds no free buffer and returns -ENOBUFS with
the state unchanged and an empty event trace (no copy, no send). -/
theorem pool_exhaustion_after_full_drain (priv : S10Priv) (count : Nat) (e : SendEnv)
    (hfree : ∀ b ∈ priv.svc_bufs, b.lock = false)
    (hlen : priv.svc_bufs.length = NUM_SVC_BUFS)
    (he : 0 ≤ e.sendRet) :
    (∀ r ∈ (sendIter count e NUM_SVC_BUFS priv).2, 0 ≤ r) ∧
    s10_send_buf (sendIter count e NUM_SVC_BUFS priv).1 count e
      = ((sendIter count e NUM_SVC_BUFS priv).1, -ENOBUFS, []) := by
  have hfc : freeCount priv.svc_bufs = NUM_SVC_BUFS := by
    have hfe : priv.svc_bufs.filter (fun b => !b.lock) = priv.svc_bufs :=
      List.filter_eq_self.mpr (by intro b hb; simp [hfree b hb])
    rw [freeCount, hfe, hlen]
  have h := sendIter_drain count e he NUM_SVC_BUFS priv hfc
  refine ⟨h.1, ?_⟩
  exact s10_send_buf_exhausted _ count e (fun b hb => (freeCount_eq_zero _).mp h.2 b hb)

/-- Witness for C3 at a concrete all-free pool. -/
theorem pool_exhaustion_after_full_drain_witness :
    (∀ r ∈ (sendIter 600000 { sendRet := 0, dmaAddr := 0 } NUM_SVC_BUFS freePriv).2, 0 ≤ r) ∧
    s10_send_buf (sendIter 600000 { sendRet := 0, dmaAddr := 0 } NUM_SVC_BUFS freePriv).1
        600000 { sendRet := 0, dmaAddr := 0 }
      = ((sendIter 600000 { sendRet := 0, dmaAddr := 0 } NUM_SVC_BUFS freePriv).1,
         -ENOBUFS, []) :=
  pool_exhaustion_after_full_drain freePriv 600000 { sendRet := 0, dmaAddr := 0 }
    (by decide) (by decide) (by decide)

/-! ### An ideal streaming environment: the transport accepts every
message and the remote acknowledges every submission with BUFFER_DONE,
returning the submitted buffer.  All four pool entries carry the same
backing address, so the echoed handle always restores the entry the scan
will pick next; each loop iteration then returns the driver to the same
state, which makes the per-chunk behaviour of the streaming loop of
s10_ops_write visible as a clean trace. -/

/-- One free pool entry backed by address 100. -/
def pumpBuf : SvcBuf := { buf := some 100, dma_addr := 0, lock := false, mapped := false }

/-- Driver state with four free buffers, all backed by address 100. -/
def pumpPriv : S10Priv :=
  { svc_bufs := [pumpBuf, pumpBuf, pumpBuf, pumpBuf],
    status := ∅, fw_version := 0, is_smmu_enabled := false }

/-- pumpPriv after the acquire scan claimed entry 0. -/
def lockedPriv : S10Priv :=
  { pumpPriv with svc_bufs := [{ pumpBuf with lock := true }, pumpBuf, pumpBuf, pumpBuf] }

/-- Per-iteration environment: send accepted, wait signalled, callback
reports BUFFER_DONE and returns the buffer address. -/
def pumpEnv : WriteEnv :=
  { sendRet := 0, dmaAddr := 0, waitRet := 1,
    cb := { status := 4, kaddr1 := some 100, kaddr2 := none, kaddr3 := none, kaddr4 := none } }

theorem pump_send_buf (count : Nat) :
    s10_send_buf pumpPriv count { sendRet := 0, dmaAddr := 0 }
      = (lockedPriv, ((min count SVC_BUF_SIZE : Nat) : Int),
         [Event.copy 0 (min count SVC_BUF_SIZE),
          Event.send Cmd.RECONFIG_DATA_SUBMIT (min count SVC_BUF_SIZE)]) := by
  have hl : lockFirstFree pumpPriv.svc_bufs
      = some ([{ pumpBuf with lock := true }, pumpBuf, pumpBuf, pumpBuf], 0) := by decide
  have hsm : pumpPriv.is_smmu_enabled = false := by decide
  simp [s10_send_buf, hl, hsm, lockedPriv]

theorem pump_after_wait (count2 : Nat) (evs : List Event) :
    s10_write_after_wait lockedPriv count2 pumpEnv evs = .cont pumpPriv count2 evs := by
  have h1 : s10_receive_callback lockedPriv pumpEnv.cb
      = ({ pumpPriv with status := {SVC_STATUS_BUFFER_DONE} }, []) := by decide
  have h2 : tcBit ({SVC_STATUS_BUFFER_DONE} : Finset Nat) SVC_STATUS_BUFFER_DONE
      = (true, ∅) := by decide
  have h3 : ({ pumpPriv with status := (∅ : Finset Nat) } : S10Priv) = pumpPriv := by decide
  have hw : (0:Nat) < pumpEnv.waitRet := by decide
  simp [s10_write_after_wait, hw, h1, h2, h3]

theorem pump_step (count : Nat) (hc : 0 < count) :
    s10_ops_write_step pumpPriv count pumpEnv
      = .cont pumpPriv (count - min count SVC_BUF_SIZE)
          [Event.copy 0 (min count SVC_BUF_SIZE),
           Event.send Cmd.RECONFIG_DATA_SUBMIT (min count SVC_BUF_SIZE)] := by
  have hsb := pump_send_buf count
  have hnn : ¬ (((min count SVC_BUF_SIZE : Nat) : Int) < 0) :=
    not_lt.mpr (Int.natCast_nonneg _)
  have hse : ({ sendRet := pumpEnv.sendRet, dmaAddr := pumpEnv.dmaAddr } : SendEnv)
      = { sendRet := 0, dmaAddr := 0 } := by decide
  simp only [s10_ops_write_step, hc, if_pos, hse, hsb, hnn, if_neg, Int.toNat_natCast]
  exact pump_after_wait _ _

/-- Under the ideal environment, an input of exactly N * SVC_BUF_SIZE
bytes is driven in exactly N submissions of SVC_BUF_SIZE bytes each,
after which the write loop returns 0 with the pool back to all-free. -/
theorem pump_run (N : Nat) :
    s10_ops_write pumpPriv (N * SVC_BUF_SIZE) (List.replicate (N + 1) pumpEnv)
      = some (pumpPriv, 0,
          (List.replicate N [Event.copy 0 SVC_BUF_SIZE,
                             Event.send Cmd.RECONFIG_DATA_SUBMIT SVC_BUF_SIZE]).flatten) := by
  induction N with
  | zero =>
    have h0 : s10_ops_write_step pumpPriv 0 pumpEnv = .ret pumpPriv 0 [] := by decide
    simp [s10_ops_write, h0]
  | succ k ih =>
    have hcap : 0 < SVC_BUF_SIZE := by norm_num [SVC_BUF_SIZE]
    have hc : 0 < (k + 1) * SVC_BUF_SIZE := Nat.mul_pos (Nat.succ_pos k) hcap
    have hmin : min ((k + 1) * SVC_BUF_SIZE) SVC_BUF_SIZE = SVC_BUF_SIZE := by
      apply min_eq_right
      rw [Nat.succ_mul]
      exact Nat.le_add_left _ _
    have hsub : (k + 1) * SVC_BUF_SIZE - SVC_BUF_SIZE = k * SVC_BUF_SIZE := by
      rw [Nat.succ_mul]
      omega
    have hstep := pump_step ((k + 1) * SVC_BUF_SIZE) hc
    rw [hmin, hsub] at hstep
    have houter : s10_ops_write pumpPriv ((k + 1) * SVC_BUF_SIZE)
          (pumpEnv :: List.replicate (k + 1) pumpEnv)
        = (s10_ops_write pumpPriv (k * SVC_BUF_SIZE) (List.replicate (k + 1) pumpEnv)).map
            (fun t => (t.1, t.2.1,
              [Event.copy 0 SVC_BUF_SIZE,
               Event.send Cmd.RECONFIG_DATA_SUBMIT SVC_BUF_SIZE] ++ t.2.2)) := by
      simp only [s10_ops_write, hstep]
    rw [List.replicate_succ, houter, ih]
    simp [List.replicate_succ]

/-- Under the ideal environment, an input of SVC_BUF_SIZE + 1 bytes is
driven as a full-capacity submission followed by a 1-byte submission. -/
theorem pump_run_capacity_plus_one :
    s10_ops_write pumpPriv (SVC_BUF_SIZE + 1) (List.replicate 3 pumpEnv)
      = some (pumpPriv, 0,
          [Event.copy 0 SVC_BUF_SIZE, Event.send Cmd.RECONFIG_DATA_SUBMIT SVC_BUF_SIZE,
           Event.copy 0 1, Event.send Cmd.RECONFIG_DATA_SUBMIT 1]) := by
  have h1 := pump_step (SVC_BUF_SIZE + 1) (by norm_num [SVC_BUF_SIZE])
  have hm1 : min (SVC_BUF_SIZE + 1) SVC_BUF_SIZE = SVC_BUF_SIZE := by
    apply min_eq_right
    omega
  have hs1 : SVC_BUF_SIZE + 1 - SVC_BUF_SIZE = 1 := by omega
  rw [hm1, hs1] at h1
  have h2 := pump_step 1 (by norm_num)
  have hm2 : min 1 SVC_BUF_SIZE = 1 := by norm_num [SVC_BUF_SIZE]
  rw [hm2] at h2
  have h0 : s10_ops_write_step pumpPriv 0 pumpEnv = .ret pumpPriv 0 [] := by decide
  simp [s10_ops_write, h1, h2, h0, List.replicate_succ]

/-- C4: a successful s10_send_buf on a non-empty remaining input of
count bytes transfers exactly min(count, SVC_BUF_SIZE) bytes and returns
that strictly positive length; driven through the s10_ops_write loop
under an environment that acknowledges and returns every submitted
buffer, an input of exactly N * SVC_BUF_SIZE bytes yields exactly N
submissions of SVC_BUF_SIZE bytes each, and an input of
SVC_BUF_SIZE + 1 bytes yields a SVC_BUF_SIZE-byte submission followed by
a 1-byte submission. -/
theorem submission_chunking :
    (∀ (priv : S10Priv) (count : Nat) (e : SendEnv), 0 ≤ e.sendRet →
        0 < freeCount priv.svc_bufs → 0 < count →
        (s10_send_buf priv count e).2.1 = ((min count SVC_BUF_SIZE : Nat) : Int) ∧
        0 < (s10_send_buf priv count e).2.1) ∧
    (∀ N : Nat,
        s10_ops_write pumpPriv (N * SVC_BUF_SIZE) (List.replicate (N + 1) pumpEnv)
          = some (pumpPriv, 0,
              (List.replicate N [Event.copy 0 SVC_BUF_SIZE,
                                 Event.send Cmd.RECONFIG_DATA_SUBMIT SVC_BUF_SIZE]).flatten)) ∧
    s10_ops_write pumpPriv (SVC_BUF_SIZE + 1) (List.replicate 3 pumpEnv)
      = some (pumpPriv, 0,
          [Event.copy 0 SVC_BUF_SIZE, Event.send Cmd.RECONFIG_DATA_SUBMIT SVC_BUF_SIZE,
           Event.copy 0 1, Event.send Cmd.RECONFIG_DATA_SUBMIT 1]) := by
  refine ⟨?_, pump_run, pump_run_capacity_plus_one⟩
  intro priv count e he hfree hc
  have h := (s10_send_buf_success priv count e he hfree).1
  refine ⟨h, ?_⟩
  rw [h]
  have : 0 < min count SVC_BUF_SIZE := by
    have : 0 < SVC_BUF_SIZE := by norm_num [SVC_BUF_SIZE]
    omega
  exact_mod_cast this

/-- Witness for C4: the per-call clause at a concrete pool with a free
buffer and a 5-byte input, and the run clause at N = 2. -/
theorem submission_chunking_witness :
    ((s10_send_buf freePriv 5 { sendRet := 0, dmaAddr := 0 }).2.1 = ((5:Nat) : Int) ∧
     0 < (s10_send_buf freePriv 5 { sendRet := 0, dmaAddr := 0 }).2.1) ∧
    s10_ops_write pumpPriv (2 * SVC_BUF_SIZE) (List.replicate 3 pumpEnv)
      = some (pumpPriv, 0,
          (List.replicate 2 [Event.copy 0 SVC_BUF_SIZE,
                             Event.send Cmd.RECONFIG_DATA_SUBMIT SVC_BUF_SIZE]).flatten) := by
  constructor
  · have h := submission_chunking.1 freePriv 5 { sendRet := 0, dmaAddr := 0 }
      (by decide) (by decide) (by decide)
    have hm : min 5 SVC_BUF_SIZE = 5 := by norm_num [SVC_BUF_SIZE]
    rw [hm] at h
    exact h
  · exact submission_chunking.2.1 2

/-! ### The receive callback (C8) -/

theorem s10_unlock_bufs_status (p : S10Priv) (k : Option Nat) :
    (s10_unlock_bufs p k).1.status = p.status := by
  rcases k with _ | a
  · rfl
  · rcases h : unlockScan p.is_smmu_enabled a p.svc_bufs with _ | ⟨bufs, evs⟩ <;>
      simp [s10_unlock_bufs, h]

theorem mem_orBitsUpto (hi w : Nat) (s : Finset Nat) (i : Nat) :
    i ∈ orBitsUpto hi w s ↔ (i ≤ hi ∧ w.testBit i) ∨ i ∈ s := by
  simp [orBitsUpto, Nat.lt_succ_iff]

/-- The callback data of a notification carrying only the NO_SUPPORT
condition (bit SVC_STATUS_NO_SUPPORT = 5, status word 32). -/
def cbNoSupport : CbData :=
  { status := 32, kaddr1 := none, kaddr2 := none, kaddr3 := none, kaddr4 := none }

/-- A BUFFER_DONE notification returning the address of the free buffer
of samplePriv. -/
def cbBufferDone : CbData :=
  { status := 4, kaddr1 := some 300, kaddr2 := none, kaddr3 := none, kaddr4 := none }

/-- C8 counterexample: the aggregation loop of s10_receive_callback runs
only up to bit index SVC_STATUS_ERROR, so a NO_SUPPORT condition present
in the inbound message is NOT OR-ed into the aggregated status set: at a
concrete state with an empty status set, after a message whose status
word has exactly the NO_SUPPORT bit set, the aggregated set still does
not contain NO_SUPPORT.  This refutes the claim that every bit of the
taxonomy, including NO_SUPPORT, is aggregated. -/
theorem receive_callback_drops_no_support :
    cbNoSupport.status.testBit SVC_STATUS_NO_SUPPORT = true ∧
    SVC_STATUS_NO_SUPPORT ∉ (s10_receive_callback samplePriv cbNoSupport).1.status := by
  decide

/-- C8 (amended): for every inbound notification, s10_receive_callback
ORs each status bit of index at most SVC_STATUS_ERROR present in the
message into the aggregated status set, never clearing previously set
bits (full membership characterization); bits above SVC_STATUS_ERROR,
such as NO_SUPPORT, are not aggregated.  When the message carries
BUFFER_DONE, each of the four returned buffer handles is passed, in
order, to the pool release s10_unlock_bufs; otherwise the pool is left
untouched. -/
theorem receive_callback_aggregates (priv : S10Priv) (data : CbData) :
    (∀ i : Nat, i ∈ (s10_receive_callback priv data).1.status ↔
        ((i ≤ SVC_STATUS_ERROR ∧ data.status.testBit i) ∨ i ∈ priv.status)) ∧
    (data.status.testBit SVC_STATUS_BUFFER_DONE = true →
      (s10_receive_callback priv data).1.svc_bufs =
        (s10_unlock_bufs (s10_unlock_bufs (s10_unlock_bufs (s10_unlock_bufs
            { priv with status := orBitsUpto SVC_STATUS_ERROR data.status priv.status }
            data.kaddr1).1 data.kaddr2).1 data.kaddr3).1 data.kaddr4).1.svc_bufs) ∧
    (data.status.testBit SVC_STATUS_BUFFER_DONE = false →
      (s10_receive_callback priv data).1.svc_bufs = priv.svc_bufs) := by
  by_cases hbd : data.status.testBit SVC_STATUS_BUFFER_DONE
  · refine ⟨?_, fun _ => by simp [s10_receive_callback, hbd], fun hc => by simp [hbd] at hc⟩
    intro i
    simp only [s10_receive_callback, hbd, if_pos, s10_unlock_bufs_status]
    exact mem_orBitsUpto SVC_STATUS_ERROR data.status priv.status i
  · refine ⟨?_, fun hc => by simp [hbd] at hc, fun _ => by simp [s10_receive_callback, hbd]⟩
    intro i
    simp only [s10_receive_callback, hbd, if_neg, Bool.false_eq_true]
    exact mem_orBitsUpto SVC_STATUS_ERROR data.status priv.status i

/-- Witness for C8 at a concrete BUFFER_DONE notification: the
aggregation characterization at bit BUFFER_DONE and the pool update by
the four release passes. -/
theorem receive_callback_aggregates_witness :
    (SVC_STATUS_BUFFER_DONE ∈ (s10_receive_callback samplePriv cbBufferDone).1.status ↔
        ((SVC_STATUS_BUFFER_DONE ≤ SVC_STATUS_ERROR ∧
          cbBufferDone.status.testBit SVC_STATUS_BUFFER_DONE) ∨
         SVC_STATUS_BUFFER_DONE ∈ samplePriv.status)) ∧
    (s10_receive_callback samplePriv cbBufferDone).1.svc_bufs =
      (s10_unlock_bufs (s10_unlock_bufs (s10_unlock_bufs (s10_unlock_bufs
          { samplePriv with
            status := orBitsUpto SVC_STATUS_ERROR cbBufferDone.status samplePriv.status }
          cbBufferDone.kaddr1).1 cbBufferDone.kaddr2).1 cbBufferDone.kaddr3).1
        cbBufferDone.kaddr4).1.svc_bufs :=
  ⟨(receive_callback_aggregates samplePriv cbBufferDone).1 SVC_STATUS_BUFFER_DONE,
   (receive_callback_aggregates samplePriv cbBufferDone).2.1 (by decide)⟩

/-! ### write_init (C2, C1) -/

/-- A driver state whose cached firmware version is still the sentinel. -/
def sentinelPriv : S10Priv :=
  { svc_bufs := freePriv.svc_bufs, status := ∅,
    fw_version := INVALID_FIRMWARE_VERSION, is_smmu_enabled := false }

/-- A begin-operation environment where the send is accepted, the wait is
signalled and the remote reports OK (status word 1 = bit SVC_STATUS_OK). -/
def okEnv : InitEnv :=
  { sendRet := 0, waitRet := 1,
    cb := { status := 1, kaddr1 := none, kaddr2 := none, kaddr3 := none, kaddr4 := none } }

/-- C2 counterexample: with BOTH partial and authenticated modes
requested (and the firmware version still the sentinel), the partial
branch of the else-if chain wins: s10_ops_write_init does NOT fail
locally — it sends the COMMAND_RECONFIG request to the remote and (here)
succeeds.  This refutes the claim that the operation fails with an
invalid-configuration error, without sending, for any input requesting
both modes. -/
theorem write_init_both_modes_sends_request :
    (s10_ops_write_init sentinelPriv
        { flagPartialReconfig := true, flagAuthenticate := true } okEnv).2.1 = 0 ∧
    Event.send Cmd.RECONFIG 4 ∈
      (s10_ops_write_init sentinelPriv
        { flagPartialReconfig := true, flagAuthenticate := true } okEnv).2.2 := by
  decide

/-- C2 (amended): s10_ops_write_init fails locally with -EINVAL, leaving
the state untouched and sending nothing, exactly on the inputs that
request authenticated mode without partial mode while the cached
firmware version is the sentinel; whenever partial mode is requested the
partial branch takes precedence (the combination with authenticated mode
is not rejected) and the COMMAND_RECONFIG request is sent to the
remote. -/
theorem write_init_invalid_config (priv : S10Priv) (info : InfoFlags) (e : InitEnv) :
    (info.flagPartialReconfig = false → info.flagAuthenticate = true →
      priv.fw_version = INVALID_FIRMWARE_VERSION →
      s10_ops_write_init priv info e = (priv, -EINVAL, [])) ∧
    (info.flagPartialReconfig = true →
      (s10_ops_write_init priv info e).2.2.head? = some (Event.send Cmd.RECONFIG 4)) := by
  constructor
  · intro hp ha hf
    simp [s10_ops_write_init, s10_write_init_ctype, hp, ha, hf]
  · intro hp
    simp only [s10_ops_write_init, s10_write_init_ctype, hp, if_pos]
    by_cases hs : e.sendRet < 0
    · simp [hs]
    · by_cases hw : e.waitRet = 0
      · simp [hs, hw]
      · by_cases hok : (tcBit (s10_receive_callback priv e.cb).1.status SVC_STATUS_OK).1 <;>
          simp [hs, hw, hok]

/-- Witness for C2 at concrete inputs: the authenticated-without-partial
sentinel case fails locally with no events, and a partial-mode request
leads with the COMMAND_RECONFIG send. -/
theorem write_init_invalid_config_witness :
    s10_ops_write_init sentinelPriv
        { flagPartialReconfig := false, flagAuthenticate := true } okEnv
      = (sentinelPriv, -EINVAL, []) ∧
    (s10_ops_write_init freePriv
        { flagPartialReconfig := true, flagAuthenticate := false } okEnv).2.2.head?
      = some (Event.send Cmd.RECONFIG 4) :=
  ⟨(write_init_invalid_config sentinelPriv
      { flagPartialReconfig := false, flagAuthenticate := true } okEnv).1
      (by decide) (by decide) (by decide),
   (write_init_invalid_config freePriv
      { flagPartialReconfig := true, flagAuthenticate := false } okEnv).2 (by decide)⟩

/-! ### Channel release accounting (C1) -/

theorem unlockScan_no_svcDone (smmu : Bool) (a : Nat) :
    ∀ (l bufs : List SvcBuf) (evs : List Event), unlockScan smmu a l = some (bufs, evs) →
      evs.count Event.svcDone = 0 := by
  intro l
  induction l with
  | nil => intro bufs evs h; simp [unlockScan] at h
  | cons b rest ih =>
    intro bufs evs h
    by_cases hb : b.buf = some a
    · simp only [unlockScan, hb, if_pos, Option.some.injEq, Prod.mk.injEq] at h
      rcases h with ⟨_, hevs⟩
      rw [← hevs]
      cases smmu <;> simp
    · rcases hrec : unlockScan smmu a rest with _ | p
      · simp [unlockScan, hb, hrec] at h
      · simp only [unlockScan, hb, if_neg, hrec, Option.map_some', Option.some.injEq,
                   Prod.mk.injEq] at h
        have hi := ih p.1 p.2 hrec
        simp_all

theorem s10_unlock_bufs_no_svcDone (p : S10Priv) (k : Option Nat) :
    (s10_unlock_bufs p k).2.count Event.svcDone = 0 := by
  rcases k with _ | a
  · rfl
  · rcases h : unlockScan p.is_smmu_enabled a p.svc_bufs with _ | ⟨bufs, evs⟩
    · simp [s10_unlock_bufs, h]
    · simpa [s10_unlock_bufs, h] using unlockScan_no_svcDone p.is_smmu_enabled a
        p.svc_bufs bufs evs h

theorem s10_receive_callback_no_svcDone (p : S10Priv) (d : CbData) :
    (s10_receive_callback p d).2.count Event.svcDone = 0 := by
  by_cases hbd : d.status.testBit SVC_STATUS_BUFFER_DONE
  · simp only [s10_receive_callback, hbd, if_pos, List.count_append]
    rw [s10_unlock_bufs_no_svcDone, s10_unlock_bufs_no_svcDone,
        s10_unlock_bufs_no_svcDone, s10_unlock_bufs_no_svcDone]
  · simp [s10_receive_callback, hbd]

/-- Events projection of a polling-iteration outcome. -/
def PollOut.evs : PollOut → List Event
  | .ret _ _ evs => evs
  | .cont _ _ evs => evs

theorem s10_write_complete_step_no_svcDone (p : S10Priv) (b : Nat) (e : PollEnv) :
    (s10_write_complete_step p b e).evs.count Event.svcDone = 0 := by
  by_cases h1 : e.sendRet < 0
  · simp [s10_write_complete_step, h1, PollOut.evs]
  · by_cases h2 : e.waitRet = 0
    · simp [s10_write_complete_step, h1, h2, PollOut.evs]
    · have hcb := s10_receive_callback_no_svcDone p e.cb
      by_cases h3 : (tcBit (s10_receive_callback p e.cb).1.status SVC_STATUS_COMPLETED).1
      · simp [s10_write_complete_step, h1, h2, h3, PollOut.evs, List.count_append, hcb]
      · by_cases h4 : (tcBit (tcBit (s10_receive_callback p e.cb).1.status
            SVC_STATUS_COMPLETED).2 SVC_STATUS_ERROR).1 <;>
          simp [s10_write_complete_step, h1, h2, h3, h4, PollOut.evs,
                List.count_append, hcb]

theorem s10_write_complete_loop_no_svcDone :
    ∀ (envs : List PollEnv) (p : S10Priv) (b : Nat) (t : S10Priv × Int × List Event),
      s10_write_complete_loop p b envs = some t → t.2.2.count Event.svcDone = 0 := by
  intro envs
  induction envs with
  | nil => intro p b t h; simp [s10_write_complete_loop] at h
  | cons e es ih =>
    intro p b t h
    rcases hstep : s10_write_complete_step p b e with ⟨p3, r3, evs⟩ | ⟨p3, b3, evs⟩
    · have he : evs.count Event.svcDone = 0 := by
        have := s10_write_complete_step_no_svcDone p b e
        rw [hstep] at this
        exact this
      simp only [s10_write_complete_loop, hstep] at h
      cases h
      exact he
    · have he : evs.count Event.svcDone = 0 := by
        have := s10_write_complete_step_no_svcDone p b e
        rw [hstep] at this
        exact this
      simp only [s10_write_complete_loop, hstep, Option.map_eq_some'] at h
      obtain ⟨t2, ht2, hte⟩ := h
      have := ih p3 b3 t2 ht2
      subst hte
      simp [List.count_append, he, this]

/-- C1 counterexample: the early invalid-configuration return of
s10_ops_write_init (authenticated mode with the firmware version still
the sentinel) returns -EINVAL without ever calling stratix10_svc_done:
the channel release happens zero times on this exit path, not exactly
once. -/
theorem write_init_early_return_skips_svc_done :
    (s10_ops_write_init sentinelPriv
        { flagPartialReconfig := false, flagAuthenticate := true } okEnv).2.1 = -EINVAL ∧
    (s10_ops_write_init sentinelPriv
        { flagPartialReconfig := false, flagAuthenticate := true }
        okEnv).2.2.count Event.svcDone = 0 := by
  decide

/-- C1 (amended): s10_ops_write_init calls stratix10_svc_done exactly
once before returning on every exit path EXCEPT the early
invalid-configuration return (authenticated mode requested with the
firmware version still the sentinel), where it is not called at all;
s10_ops_write_complete calls it exactly once on every terminating run. -/
theorem svc_done_once_per_exit (priv : S10Priv) (info : InfoFlags) (e : InitEnv)
    (p2 : S10Priv) (t0 : Nat) (envs : List PollEnv) (r : S10Priv × Int × List Event) :
    ((info.flagPartialReconfig = false ∧ info.flagAuthenticate = true ∧
        priv.fw_version = INVALID_FIRMWARE_VERSION) →
      (s10_ops_write_init priv info e).2.2.count Event.svcDone = 0) ∧
    (¬(info.flagPartialReconfig = false ∧ info.flagAuthenticate = true ∧
        priv.fw_version = INVALID_FIRMWARE_VERSION) →
      (s10_ops_write_init priv info e).2.2.count Event.svcDone = 1) ∧
    (s10_ops_write_complete p2 t0 envs = some r →
      r.2.2.count Event.svcDone = 1) := by
  refine ⟨?_, ?_, ?_⟩
  · rintro ⟨hp, ha, hf⟩
    simp [s10_ops_write_init, s10_write_init_ctype, hp, ha, hf]
  · intro hno
    have hct : ∃ c, s10_write_init_ctype priv info = some c := by
      by_cases hp : info.flagPartialReconfig
      · exact ⟨(true, false), by simp [s10_write_init_ctype, hp]⟩
      · by_cases ha : info.flagAuthenticate
        · have hf : priv.fw_version ≠ INVALID_FIRMWARE_VERSION := fun hf =>
            hno ⟨by simpa using hp, ha, hf⟩
          exact ⟨(false, true), by simp [s10_write_init_ctype, hp, ha, hf]⟩
        · exact ⟨(false, false), by simp [s10_write_init_ctype, hp, ha]⟩
    obtain ⟨c, hc⟩ := hct
    have hcb := s10_receive_callback_no_svcDone priv e.cb
    simp only [s10_ops_write_init, hc]
    by_cases hs : e.sendRet < 0
    · simp [hs]
    · by_cases hw : e.waitRet = 0
      · simp [hs, hw]
      · by_cases hok : (tcBit (s10_receive_callback priv e.cb).1.status SVC_STATUS_OK).1 <;>
          simp [hs, hw, hok, List.count_append, hcb]
  · intro hr
    rcases hl : s10_write_complete_loop p2 t0 envs with _ | t
    · simp [s10_ops_write_complete, hl] at hr
    · have h0 := s10_write_complete_loop_no_svcDone envs p2 t0 t hl
      simp only [s10_ops_write_complete, hl, Option.map_some'] at hr
      obtain rfl : (t.1, t.2.1, t.2.2 ++ [Event.svcDone]) = r := Option.some.inj hr
      simp [List.count_append, h0]

/-- Witness for C1 at concrete inputs: the early-return path calls
stratix10_svc_done zero times, a normal begin path calls it once, and a
terminating finish run calls it once. -/
theorem svc_done_once_per_exit_witness :
    (s10_ops_write_init sentinelPriv
        { flagPartialReconfig := false, flagAuthenticate := true }
        okEnv).2.2.count Event.svcDone = 0 ∧
    (s10_ops_write_init freePriv
        { flagPartialReconfig := false, flagAuthenticate := false }
        okEnv).2.2.count Event.svcDone = 1 ∧
    ([Event.send Cmd.RECONFIG_STATUS 0, Event.wait 10,
      Event.svcDone] : List Event).count Event.svcDone = 1 :=
  ⟨(svc_done_once_per_exit sentinelPriv
      { flagPartialReconfig := false, flagAuthenticate := true } okEnv
      samplePriv 10 [] (samplePriv, 0, [])).1 (by decide),
   (svc_done_once_per_exit freePriv
      { flagPartialReconfig := false, flagAuthenticate := false } okEnv
      samplePriv 10 [] (samplePriv, 0, [])).2.1 (by decide),
   (svc_done_once_per_exit samplePriv
      { flagPartialReconfig := false, flagAuthenticate := false } okEnv
      samplePriv 10
      [{ sendRet := 0, waitRet := 1,
         cb := { status := 8, kaddr1 := none, kaddr2 := none,
                 kaddr3 := none, kaddr4 := none } }]
      (samplePriv, 0,
       [Event.send Cmd.RECONFIG_STATUS 0, Event.wait 10, Event.svcDone])).2.2
      (by decide)⟩

/-! ### The write loop: drain phase and backpressure (C6, C9) -/

theorem tcBit_mem {s : Finset Nat} {i : Nat} (h : i ∈ s) : tcBit s i = (true, s.erase i) := by
  simp [tcBit, h]

theorem tcBit_not_mem {s : Finset Nat} {i : Nat} (h : i ∉ s) : tcBit s i = (false, s) := by
  simp [tcBit, h]

/-- The aggregated status set the wait tail of the s10_ops_write loop
tests: the set after the callback fired (when the wait was signalled), or
the untouched set (when it timed out). -/
def afterStatus (priv : S10Priv) (e : WriteEnv) : Finset Nat :=
  if 0 < e.waitRet then (s10_receive_callback priv e.cb).1.status else priv.status

/-- The value an iteration outcome returns to the caller (none when the
loop goes round again). -/
def WriteOut.code : WriteOut → Option Int
  | .ret _ r _ => some r
  | .cont _ _ _ => none

/-- The byte count an iteration outcome carries into the next iteration
(none when the loop returns). -/
def WriteOut.contCount : WriteOut → Option Nat
  | .ret _ _ _ => none
  | .cont _ c _ => some c

/-- Whatever the outcome, the wait tail of the s10_ops_write loop only
appends the callback events to the events accumulated so far. -/
theorem after_wait_evs (priv : S10Priv) (count : Nat) (e : WriteEnv) (evs : List Event) :
    (s10_write_after_wait priv count e evs).evs
      = evs ++ (if 0 < e.waitRet then s10_receive_callback priv e.cb else (priv, [])).2 := by
  simp only [s10_write_after_wait]
  split_ifs <;> simp [WriteOut.evs]

/-- Outcome classification of the wait tail of the s10_ops_write loop in
terms of the status bits it can consume. -/
theorem after_wait_cases (priv : S10Priv) (count : Nat) (e : WriteEnv) (evs : List Event) :
    (SVC_STATUS_BUFFER_DONE ∈ afterStatus priv e ∨
       SVC_STATUS_BUFFER_SUBMITTED ∈ afterStatus priv e →
       (s10_write_after_wait priv count e evs).contCount = some count) ∧
    (SVC_STATUS_BUFFER_DONE ∉ afterStatus priv e →
       SVC_STATUS_BUFFER_SUBMITTED ∉ afterStatus priv e →
       SVC_STATUS_ERROR ∈ afterStatus priv e →
       (s10_write_after_wait priv count e evs).code = some (-EFAULT)) ∧
    (SVC_STATUS_BUFFER_DONE ∉ afterStatus priv e →
       SVC_STATUS_BUFFER_SUBMITTED ∉ afterStatus priv e →
       SVC_STATUS_ERROR ∉ afterStatus priv e → e.waitRet = 0 →
       (s10_write_after_wait priv count e evs).code = some (-ETIMEDOUT)) ∧
    (SVC_STATUS_BUFFER_DONE ∉ afterStatus priv e →
       SVC_STATUS_BUFFER_SUBMITTED ∉ afterStatus priv e →
       SVC_STATUS_ERROR ∉ afterStatus priv e → 0 < e.waitRet →
       (s10_write_after_wait priv count e evs).contCount = some count) := by
  have hst : (if 0 < e.waitRet then s10_receive_callback priv e.cb
      else (priv, [])).1.status = afterStatus priv e := by
    by_cases hw : 0 < e.waitRet <;> simp [afterStatus, hw]
  refine ⟨?_, ?_, ?_, ?_⟩
  · rintro (hd | hs)
    · simp [s10_write_after_wait, hst, tcBit_mem hd, WriteOut.contCount]
    · by_cases hd : SVC_STATUS_BUFFER_DONE ∈ afterStatus priv e
      · simp [s10_write_after_wait, hst, tcBit_mem hd, WriteOut.contCount]
      · simp [s10_write_after_wait, hst, tcBit_not_mem hd, tcBit_mem hs, WriteOut.contCount]
  · intro hd hs he
    simp [s10_write_after_wait, hst, tcBit_not_mem hd, tcBit_not_mem hs, tcBit_mem he,
          WriteOut.code]
  · intro hd hs he hw
    have hps : afterStatus priv e = priv.status := by simp [afterStatus, hw]
    rw [hps] at hd hs he
    simp [s10_write_after_wait, hw, tcBit_not_mem hd, tcBit_not_mem hs,
          tcBit_not_mem he, WriteOut.code]
  · intro hd hs he hw
    have hw0 : ¬ e.waitRet = 0 := Nat.pos_iff_ne_zero.mp hw
    simp [s10_write_after_wait, hst, tcBit_not_mem hd, tcBit_not_mem hs,
          tcBit_not_mem he, hw0, WriteOut.contCount]

/-- C6: in s10_ops_write with all input consumed (count = 0): when every
buffer is already unlocked the operation returns 0 immediately with no
events (in particular no claim request); otherwise the iteration leads
with the COMMAND_RECONFIG_DATA_CLAIM send carrying no payload, a send
failure returns that error, and the wait-and-check tail loops again
(still in the drain phase, count stays 0) when BUFFER_DONE or
BUFFER_SUBMITTED is consumed, fails -EFAULT when ERROR is consumed, and
fails -ETIMEDOUT when the wait timed out with no relevant bit. -/
theorem drain_claims_until_all_free (priv : S10Priv) (e : WriteEnv) :
    (s10_get_unlocked_buffer_count priv = NUM_SVC_BUFS →
      s10_ops_write_step priv 0 e = .ret priv 0 []) ∧
    (s10_get_unlocked_buffer_count priv ≠ NUM_SVC_BUFS →
      (s10_ops_write_step priv 0 e).evs.head?
          = some (Event.send Cmd.RECONFIG_DATA_CLAIM 0) ∧
      (e.sendRet < 0 →
        s10_ops_write_step priv 0 e
          = .ret priv e.sendRet [Event.send Cmd.RECONFIG_DATA_CLAIM 0]) ∧
      (0 ≤ e.sendRet →
        (SVC_STATUS_BUFFER_DONE ∈ afterStatus priv e ∨
           SVC_STATUS_BUFFER_SUBMITTED ∈ afterStatus priv e →
           (s10_ops_write_step priv 0 e).contCount = some 0) ∧
        (SVC_STATUS_BUFFER_DONE ∉ afterStatus priv e →
           SVC_STATUS_BUFFER_SUBMITTED ∉ afterStatus priv e →
           SVC_STATUS_ERROR ∈ afterStatus priv e →
           (s10_ops_write_step priv 0 e).code = some (-EFAULT)) ∧
        (SVC_STATUS_BUFFER_DONE ∉ afterStatus priv e →
           SVC_STATUS_BUFFER_SUBMITTED ∉ afterStatus priv e →
           SVC_STATUS_ERROR ∉ afterStatus priv e → e.waitRet = 0 →
           (s10_ops_write_step priv 0 e).code = some (-ETIMEDOUT)))) := by
  constructor
  · intro hall
    simp [s10_ops_write_step, hall]
  · intro hnall
    have hstep : s10_ops_write_step priv 0 e
        = if e.sendRet < 0 then .ret priv e.sendRet [Event.send Cmd.RECONFIG_DATA_CLAIM 0]
          else s10_write_after_wait priv 0 e [Event.send Cmd.RECONFIG_DATA_CLAIM 0] := by
      simp [s10_ops_write_step, hnall]
    by_cases hs : e.sendRet < 0
    · rw [hstep, if_pos hs]
      exact ⟨rfl, fun _ => rfl, fun hns => absurd hs (not_lt.mpr hns)⟩
    · rw [hstep, if_neg hs]
      have hc := after_wait_cases priv 0 e [Event.send Cmd.RECONFIG_DATA_CLAIM 0]
      refine ⟨?_, fun hlt => absurd hlt hs, fun _ => ⟨hc.1, hc.2.1, hc.2.2.1⟩⟩
      rw [after_wait_evs]
      simp

/-- A drain-phase environment: the claim send is accepted, the wait is
signalled and the remote reports BUFFER_SUBMITTED (status word 2). -/
def claimOkEnv : WriteEnv :=
  { sendRet := 0, dmaAddr := 0, waitRet := 1,
    cb := { status := 2, kaddr1 := none, kaddr2 := none, kaddr3 := none, kaddr4 := none } }

/-- A drain-phase environment where the claim send fails with -9. -/
def claimFailEnv : WriteEnv :=
  { sendRet := -9, dmaAddr := 0, waitRet := 0,
    cb := { status := 0, kaddr1 := none, kaddr2 := none, kaddr3 := none, kaddr4 := none } }

/-- Witness for C6 at concrete states: immediate success with no events
on an all-free pool, the leading claim send on a pool with an in-flight
buffer, the propagated send error, and the loop-again outcome when
BUFFER_SUBMITTED is consumed. -/
theorem drain_claims_until_all_free_witness :
    s10_ops_write_step freePriv 0 claimOkEnv = .ret freePriv 0 [] ∧
    (s10_ops_write_step samplePriv 0 claimOkEnv).evs.head?
        = some (Event.send Cmd.RECONFIG_DATA_CLAIM 0) ∧
    s10_ops_write_step samplePriv 0 claimFailEnv
        = .ret samplePriv (-9) [Event.send Cmd.RECONFIG_DATA_CLAIM 0] ∧
    (s10_ops_write_step samplePriv 0 claimOkEnv).contCount = some 0 :=
  ⟨(drain_claims_until_all_free freePriv claimOkEnv).1 (by decide),
   ((drain_claims_until_all_free samplePriv claimOkEnv).2 (by decide)).1,
   ((drain_claims_until_all_free samplePriv claimFailEnv).2 (by decide)).2.1 (by decide),
   (((drain_claims_until_all_free samplePriv claimOkEnv).2 (by decide)).2.2 (by decide)).1
     (Or.inr (by decide))⟩

/-- All .ret outcomes of the wait tail carry -EFAULT or -ETIMEDOUT. -/
theorem after_wait_code_values (priv : S10Priv) (count : Nat) (e : WriteEnv)
    (evs : List Event) :
    ∀ r, (s10_write_after_wait priv count e evs).code = some r →
      r = -EFAULT ∨ r = -ETIMEDOUT := by
  intro r h
  simp only [s10_write_after_wait] at h
  split_ifs at h <;> simp [WriteOut.code] at h <;> omega

/-- All values a single iteration of the s10_ops_write loop can return:
0, -EFAULT, -ETIMEDOUT, or a negative transport error from the claim
send. -/
theorem step_code_values (priv : S10Priv) (count : Nat) (e : WriteEnv) :
    ∀ r, (s10_ops_write_step priv count e).code = some r →
      r = 0 ∨ r = -EFAULT ∨ r = -ETIMEDOUT ∨ (r = e.sendRet ∧ e.sendRet < 0) := by
  intro r h
  by_cases hc : 0 < count
  · simp only [s10_ops_write_step, hc, if_pos] at h
    by_cases hf : (s10_send_buf priv count
        { sendRet := e.sendRet, dmaAddr := e.dmaAddr }).2.1 < 0
    · rw [if_pos hf] at h
      simp [WriteOut.code] at h
    · rw [if_neg hf] at h
      rcases after_wait_code_values _ _ _ _ r h with h1 | h2
      · exact Or.inr (Or.inl h1)
      · exact Or.inr (Or.inr (Or.inl h2))
  · simp only [s10_ops_write_step, hc, if_neg] at h
    by_cases ha : s10_get_unlocked_buffer_count priv = NUM_SVC_BUFS
    · rw [if_pos ha] at h
      simp [WriteOut.code] at h
      omega
    · rw [if_neg ha] at h
      by_cases hs : e.sendRet < 0
      · rw [if_pos hs] at h
        simp [WriteOut.code] at h
        exact Or.inr (Or.inr (Or.inr ⟨h.symm, hs⟩))
      · rw [if_neg hs] at h
        rcases after_wait_code_values _ _ _ _ r h with h1 | h2
        · exact Or.inr (Or.inl h1)
        · exact Or.inr (Or.inr (Or.inl h2))

/-- Provenance of the value s10_ops_write returns: 0, -EFAULT,
-ETIMEDOUT, or a transport error taken verbatim from some iteration
environment.  The pool-exhaustion -ENOBUFS of s10_send_buf is never
among them. -/
theorem write_code_provenance :
    ∀ (envs : List WriteEnv) (priv : S10Priv) (count : Nat)
      (t : S10Priv × Int × List Event),
      s10_ops_write priv count envs = some t →
        t.2.1 = 0 ∨ t.2.1 = -EFAULT ∨ t.2.1 = -ETIMEDOUT ∨
          ∃ e2 ∈ envs, t.2.1 = e2.sendRet ∧ e2.sendRet < 0 := by
  intro envs
  induction envs with
  | nil => intro priv count t h; simp [s10_ops_write] at h
  | cons e es ih =>
    intro priv count t h
    rcases hstep : s10_ops_write_step priv count e with ⟨p, r, evs⟩ | ⟨p, c, evs⟩
    · simp only [s10_ops_write, hstep] at h
      obtain rfl : (p, r, evs) = t := Option.some.inj h
      have hr : (s10_ops_write_step priv count e).code = some r := by
        rw [hstep]; rfl
      rcases step_code_values priv count e r hr with h0 | h1 | h2 | ⟨h3, h4⟩
      · exact Or.inl h0
      · exact Or.inr (Or.inl h1)
      · exact Or.inr (Or.inr (Or.inl h2))
      · exact Or.inr (Or.inr (Or.inr ⟨e, List.mem_cons_self e es, h3, h4⟩))
    · simp only [s10_ops_write, hstep, Option.map_eq_some'] at h
      obtain ⟨t2, ht2, hte⟩ := h
      obtain rfl : (t2.1, t2.2.1, evs ++ t2.2.2) = t := hte
      rcases ih p c t2 ht2 with h0 | h1 | h2 | ⟨e2, he2, h3, h4⟩
      · exact Or.inl h0
      · exact Or.inr (Or.inl h1)
      · exact Or.inr (Or.inr (Or.inl h2))
      · exact Or.inr (Or.inr (Or.inr ⟨e2, List.mem_cons_of_mem e he2, h3, h4⟩))

/-- A pool with every buffer locked (all in flight). -/
def busyPriv : S10Priv :=
  { svc_bufs := [{ buf := some 100, dma_addr := 0, lock := true, mapped := false },
                 { buf := some 200, dma_addr := 0, lock := true, mapped := false },
                 { buf := some 300, dma_addr := 0, lock := true, mapped := false },
                 { buf := some 400, dma_addr := 0, lock := true, mapped := false }],
    status := ∅, fw_version := 10, is_smmu_enabled := false }

/-- C9: in the streaming phase of s10_ops_write, a failed buffer
acquisition (pool exhausted, s10_send_buf = -ENOBUFS) leaves the state,
the byte cursor and the remaining count unchanged, produces no events,
and simply loops again; more generally any negative s10_send_buf result
loops again with the count unchanged; and the -ENOBUFS exhaustion value
is never the result of s10_ops_write itself (every returned value is 0,
-EFAULT, -ETIMEDOUT, or a transport error supplied verbatim by the
environment of some iteration). -/
theorem exhaustion_never_surfaced (priv : S10Priv) (count : Nat) (e : WriteEnv)
    (envs : List WriteEnv) (t : S10Priv × Int × List Event) :
    ((∀ b ∈ priv.svc_bufs, b.lock = true) → 0 < count →
      s10_ops_write_step priv count e = .cont priv count []) ∧
    (0 < count →
      (s10_send_buf priv count { sendRet := e.sendRet, dmaAddr := e.dmaAddr }).2.1 < 0 →
      s10_ops_write_step priv count e
        = .cont (s10_send_buf priv count
              { sendRet := e.sendRet, dmaAddr := e.dmaAddr }).1 count
            (s10_send_buf priv count
              { sendRet := e.sendRet, dmaAddr := e.dmaAddr }).2.2) ∧
    (s10_ops_write priv count envs = some t →
      t.2.1 = 0 ∨ t.2.1 = -EFAULT ∨ t.2.1 = -ETIMEDOUT ∨
        ∃ e2 ∈ envs, t.2.1 = e2.sendRet ∧ e2.sendRet < 0) := by
  refine ⟨?_, ?_, write_code_provenance envs priv count t⟩
  · intro hall hc
    have hsb := s10_send_buf_exhausted priv count
      { sendRet := e.sendRet, dmaAddr := e.dmaAddr } hall
    have hneg : (-ENOBUFS : Int) < 0 := by norm_num [ENOBUFS]
    simp [s10_ops_write_step, hc, hsb, hneg]
  · intro hc hf
    simp only [s10_ops_write_step, hc, if_pos]
    rw [if_pos hf]

/-- Witness for C9 at concrete states: the retry on an exhausted pool,
the retry on a transport error, and the provenance of a concrete
terminating run. -/
theorem exhaustion_never_surfaced_witness :
    s10_ops_write_step busyPriv 7 claimOkEnv = .cont busyPriv 7 [] ∧
    s10_ops_write_step samplePriv 7 claimFailEnv
      = .cont (s10_send_buf samplePriv 7
            { sendRet := claimFailEnv.sendRet, dmaAddr := claimFailEnv.dmaAddr }).1 7
          (s10_send_buf samplePriv 7
            { sendRet := claimFailEnv.sendRet, dmaAddr := claimFailEnv.dmaAddr }).2.2 ∧
    ((freePriv, (0:Int), ([] : List Event)).2.1 = 0 ∨
     (freePriv, (0:Int), ([] : List Event)).2.1 = -EFAULT ∨
     (freePriv, (0:Int), ([] : List Event)).2.1 = -ETIMEDOUT ∨
     ∃ e2 ∈ [claimOkEnv], (freePriv, (0:Int), ([] : List Event)).2.1 = e2.sendRet ∧
       e2.sendRet < 0) :=
  ⟨(exhaustion_never_surfaced busyPriv 7 claimOkEnv [] (freePriv, 0, [])).1
      (by decide) (by decide),
   (exhaustion_never_surfaced samplePriv 7 claimFailEnv [] (freePriv, 0, [])).2.1
      (by decide) (by decide),
   (exhaustion_never_surfaced freePriv 0 claimOkEnv [claimOkEnv] (freePriv, 0, [])).2.2
      (by decide)⟩

/-! ### The completion-polling loop (C7) -/

theorem tcBit_fst (s : Finset Nat) (i : Nat) : (tcBit s i).1 = true ↔ i ∈ s := by
  by_cases h : i ∈ s <;> simp [tcBit, h]

/-- The value a polling-iteration outcome returns (none when the loop
polls again). -/
def PollOut.code : PollOut → Option Int
  | .ret _ r _ => some r
  | .cont _ _ _ => none

/-- C7: in the polling loop of s10_ops_write_complete, an iteration that
is signalled without COMPLETED or ERROR polls again carrying exactly the
remaining time the wait reported, not a fresh full timeout: the cont
outcome stores the wait result as the next budget, the loop recurses
with it, and the trace records which budget each wait was entered with.
The loop ends with 0 exactly when COMPLETED is consumed (and COMPLETED
is cleared in the resulting state), ends with -EFAULT when ERROR is
consumed, and ends with -ETIMEDOUT when the wait exhausts the budget. -/
theorem completion_poll_reuses_budget (priv : S10Priv) (budget : Nat) (e : PollEnv)
    (es : List PollEnv) :
    (∀ p b2 evs, s10_write_complete_step priv budget e = .cont p b2 evs →
       b2 = e.waitRet ∧ Event.wait budget ∈ evs ∧
       s10_write_complete_loop priv budget (e :: es)
         = (s10_write_complete_loop p e.waitRet es).map
             (fun t => (t.1, t.2.1, evs ++ t.2.2))) ∧
    (0 ≤ e.sendRet → 0 < e.waitRet →
       SVC_STATUS_COMPLETED ∉ (s10_receive_callback priv e.cb).1.status →
       SVC_STATUS_ERROR ∉ (s10_receive_callback priv e.cb).1.status →
       s10_write_complete_step priv budget e
         = .cont (s10_receive_callback priv e.cb).1 e.waitRet
             ([Event.send Cmd.RECONFIG_STATUS 0, Event.wait budget]
                ++ (s10_receive_callback priv e.cb).2)) ∧
    ((s10_write_complete_step priv budget e).code = some 0 ↔
       (0 ≤ e.sendRet ∧ 0 < e.waitRet ∧
        SVC_STATUS_COMPLETED ∈ (s10_receive_callback priv e.cb).1.status)) ∧
    (∀ q r evs2, s10_write_complete_step priv budget e = .ret q r evs2 → r = 0 →
       SVC_STATUS_COMPLETED ∉ q.status) ∧
    (0 ≤ e.sendRet → 0 < e.waitRet →
       SVC_STATUS_COMPLETED ∉ (s10_receive_callback priv e.cb).1.status →
       SVC_STATUS_ERROR ∈ (s10_receive_callback priv e.cb).1.status →
       (s10_write_complete_step priv budget e).code = some (-EFAULT)) ∧
    (0 ≤ e.sendRet → e.waitRet = 0 →
       s10_write_complete_step priv budget e
         = .ret priv (-ETIMEDOUT) [Event.send Cmd.RECONFIG_STATUS 0, Event.wait budget]) := by
  refine ⟨?_, ?_, ?_, ?_, ?_, ?_⟩
  · intro p b2 evs h
    have hb : b2 = e.waitRet ∧ Event.wait budget ∈ evs := by
      simp only [s10_write_complete_step] at h
      split_ifs at h with h1 h2 h3 h4
      rw [PollOut.cont.injEq] at h
      obtain ⟨hp, hbw, hevs⟩ := h
      refine ⟨hbw.symm, ?_⟩
      rw [← hevs]
      simp
    refine ⟨hb.1, hb.2, ?_⟩
    simp only [s10_write_complete_loop, h, hb.1]
  · intro hs hw hc he
    have hs0 : ¬ e.sendRet < 0 := not_lt.mpr hs
    have hw0 : ¬ e.waitRet = 0 := Nat.pos_iff_ne_zero.mp hw
    simp [s10_write_complete_step, hs0, hw0, tcBit_not_mem hc, tcBit_not_mem he]
  · constructor
    · intro h
      simp only [s10_write_complete_step] at h
      split_ifs at h with h1 h2 h3 h4
      · simp [PollOut.code] at h
        omega
      · simp [PollOut.code] at h
        norm_num [ETIMEDOUT] at h
      · refine ⟨not_lt.mp h1, Nat.pos_of_ne_zero h2, ?_⟩
        exact (tcBit_fst _ _).mp h3
      · simp [PollOut.code] at h
        norm_num [EFAULT] at h
      · simp [PollOut.code] at h
    · rintro ⟨hs, hw, hm⟩
      have hs0 : ¬ e.sendRet < 0 := not_lt.mpr hs
      have hw0 : ¬ e.waitRet = 0 := Nat.pos_iff_ne_zero.mp hw
      simp [s10_write_complete_step, hs0, hw0, tcBit_mem hm, PollOut.code]
  · intro q r evs2 h hr
    simp only [s10_write_complete_step] at h
    split_ifs at h with h1 h2 h3 h4
    · rw [PollOut.ret.injEq] at h
      obtain ⟨_, hre, _⟩ := h
      omega
    · rw [PollOut.ret.injEq] at h
      obtain ⟨_, hre, _⟩ := h
      rw [hr] at hre
      norm_num [ETIMEDOUT] at hre
    · rw [PollOut.ret.injEq] at h
      obtain ⟨hq, _, _⟩ := h
      rw [← hq]
      have hm := (tcBit_fst (s10_receive_callback priv e.cb).1.status
        SVC_STATUS_COMPLETED).mp h3
      simp [tcBit_mem hm]
    · rw [PollOut.ret.injEq] at h
      obtain ⟨_, hre, _⟩ := h
      rw [hr] at hre
      norm_num [EFAULT] at hre
  · intro hs hw hc he
    have hs0 : ¬ e.sendRet < 0 := not_lt.mpr hs
    have hw0 : ¬ e.waitRet = 0 := Nat.pos_iff_ne_zero.mp hw
    simp [s10_write_complete_step, hs0, hw0, tcBit_not_mem hc, tcBit_mem he, PollOut.code]
  · intro hs hw
    have hs0 : ¬ e.sendRet < 0 := not_lt.mpr hs
    simp [s10_write_complete_step, hs0, hw]

/-- A quiet poll environment: signalled with only the OK condition, so
neither COMPLETED nor ERROR is consumed and 3 jiffies remain. -/
def pollQuietEnv : PollEnv :=
  { sendRet := 0, waitRet := 3,
    cb := { status := 1, kaddr1 := none, kaddr2 := none, kaddr3 := none, kaddr4 := none } }

/-- A poll environment whose notification carries COMPLETED (bit 3). -/
def pollDoneEnv : PollEnv :=
  { sendRet := 0, waitRet := 2,
    cb := { status := 8, kaddr1 := none, kaddr2 := none, kaddr3 := none, kaddr4 := none } }

/-- A poll environment whose notification carries ERROR (bit 4). -/
def pollErrEnv : PollEnv :=
  { sendRet := 0, waitRet := 2,
    cb := { status := 16, kaddr1 := none, kaddr2 := none, kaddr3 := none, kaddr4 := none } }

/-- A poll environment whose wait exhausts the budget. -/
def pollTimeoutEnv : PollEnv :=
  { sendRet := 0, waitRet := 0,
    cb := { status := 0, kaddr1 := none, kaddr2 := none, kaddr3 := none, kaddr4 := none } }

/-- Witness for C7 at concrete states: a partial wake carries the
remaining 3 jiffies (not the full 10) into the next iteration, success
exactly on COMPLETED (which is consumed), -EFAULT on ERROR, and
-ETIMEDOUT on budget exhaustion. -/
theorem completion_poll_reuses_budget_witness :
    ((3:Nat) = pollQuietEnv.waitRet ∧
     Event.wait 10 ∈ [Event.send Cmd.RECONFIG_STATUS 0, Event.wait 10] ∧
     s10_write_complete_loop samplePriv 10 [pollQuietEnv]
       = (s10_write_complete_loop { samplePriv with status := {SVC_STATUS_OK} } 3 []).map
           (fun t => (t.1, t.2.1,
             [Event.send Cmd.RECONFIG_STATUS 0, Event.wait 10] ++ t.2.2))) ∧
    s10_write_complete_step samplePriv 10 pollQuietEnv
      = .cont (s10_receive_callback samplePriv pollQuietEnv.cb).1 pollQuietEnv.waitRet
          ([Event.send Cmd.RECONFIG_STATUS 0, Event.wait 10]
             ++ (s10_receive_callback samplePriv pollQuietEnv.cb).2) ∧
    (s10_write_complete_step samplePriv 10 pollDoneEnv).code = some 0 ∧
    SVC_STATUS_COMPLETED ∉ samplePriv.status ∧
    (s10_write_complete_step samplePriv 10 pollErrEnv).code = some (-EFAULT) ∧
    s10_write_complete_step samplePriv 10 pollTimeoutEnv
      = .ret samplePriv (-ETIMEDOUT) [Event.send Cmd.RECONFIG_STATUS 0, Event.wait 10] :=
  ⟨(completion_poll_reuses_budget samplePriv 10 pollQuietEnv []).1
      { samplePriv with status := {SVC_STATUS_OK} } 3
      [Event.send Cmd.RECONFIG_STATUS 0, Event.wait 10] (by decide),
   (completion_poll_reuses_budget samplePriv 10 pollQuietEnv []).2.1
      (by decide) (by decide) (by decide) (by decide),
   (completion_poll_reuses_budget samplePriv 10 pollDoneEnv []).2.2.1.mpr
      ⟨by decide, by decide, by decide⟩,
   (completion_poll_reuses_budget samplePriv 10 pollDoneEnv []).2.2.2.1
      samplePriv 0 [Event.send Cmd.RECONFIG_STATUS 0, Event.wait 10] (by decide) rfl,
   (completion_poll_reuses_budget samplePriv 10 pollErrEnv []).2.2.2.2.1
      (by decide) (by decide) (by decide) (by decide),
   (completion_poll_reuses_budget samplePriv 10 pollTimeoutEnv []).2.2.2.2.2
      (by decide) (by decide)⟩

end S10
